import Mathlib

/-!
Shallow embedding of the MedBookDB clinical appointment backend:
token service and authorization gate (app/core/security.py,
app/core/middleware.py), current-user dependency (app/dependencies.py),
booking engine (app/modules/appointments/service.py and models.py),
availability engine (app/routers/doctor.py, app/core/permission.py,
app/modules/doctors/repository.py), and the two unit-of-work managers
(app/db/sql.py get_session and the standalone transaction manager in
app/Transaction and Rollback/transaction_manager.py).
-/

namespace MedBook

/-- JWT claim payload as decoded by jose. Each claim is optional because a
token may omit it; iat and exp are Unix timestamps. The signing and
wire-encoding layer (jose.jwt.encode / jwt.decode with the shared secret)
is the external collaborator; it is passed in as a function
from token strings to optional payloads, none meaning JWTError. -/
structure Payload where
  sub : Option String
  type : Option String
  role : Option String
  email : Option String
  scopes : Option (List String)
  jti : Option String
  iat : Option Int
  exp : Option Int
deriving DecidableEq, Repr

/-- Error labels raised as InvalidTokenError in app/core/security.py decode_token. -/
inductive TokenErr where
  | missing_token
  | invalid_token
  | invalid_claims
deriving DecidableEq, Repr

/-- Embeds decode_token from app/core/security.py: empty token fails, a
jose-level failure fails, and payloads missing the mandatory sub or type
claims fail. -/
def decode_token (jwtDecode : String → Option Payload) (token : String) :
    Except TokenErr Payload :=
  if token = "" then .error .missing_token
  else
    match jwtDecode token with
    | none => .error .invalid_token
    | some payload =>
      if payload.sub = none ∨ payload.type = none then .error .invalid_claims
      else .ok payload

/-- Embeds is_access_token from app/core/security.py. -/
def is_access_token (payload : Payload) : Bool :=
  payload.type == some "access"

/-- Embeds is_refresh_token from app/core/security.py. -/
def is_refresh_token (payload : Payload) : Bool :=
  payload.type == some "refresh"

/-- Python truthiness of an optional string: None and the empty string are falsy. -/
def pyTruthyStr : Option String → Bool
  | none => false
  | some s => s != ""

/-- Python truthiness of an optional list: None and the empty list are falsy. -/
def pyTruthyList : Option (List String) → Bool
  | none => false
  | some l => !l.isEmpty

/-- Embeds create_access_token from app/core/security.py: the claims dict
always holds sub, type = access, iat, exp and jti; email, role and scopes
are added only when truthy. The clock and the random jti are inputs. The
extra_claims parameter of the source is omitted: every call site in the
repository leaves it at its None default. -/
def create_access_token (subject : String) (email role : Option String)
    (scopes : Option (List String)) (iat exp : Int) (jti : String) : Payload :=
  { sub := some subject
    type := some "access"
    role := if pyTruthyStr role then role else none
    email := if pyTruthyStr email then email else none
    scopes := if pyTruthyList scopes then scopes else none
    jti := some jti
    iat := some iat
    exp := some exp }

/-- The request.state.user dict attached by RequireAuthMiddleware
(app/core/middleware.py, step 5): keys sub, role, email, scopes, jti. -/
structure UserCtx where
  sub : Option String
  role : String
  email : Option String
  scopes : List String
  jti : Option String
deriving DecidableEq, Repr

/-- Outcome of RequireAuthMiddleware.dispatch: pass through anonymously
(whitelisted path), reject with an HTTP status and detail before any
handler runs, or proceed to call_next with the user context attached. -/
inductive GateResult where
  | next
  | reject (status : Nat) (detail : String)
  | proceed (ctx : UserCtx)
deriving DecidableEq, Repr

/-- Embeds _is_whitelisted from app/core/middleware.py; regex patterns are
modelled as Boolean path predicates. -/
def _is_whitelisted (path : String) (white : List (String → Bool)) : Bool :=
  white.any (fun p => p path)

/-- Python str.lower, per character (the headers involved are ASCII). -/
def pyLower (s : String) : String :=
  ⟨s.data.map Char.toLower⟩

/-- Python str.startswith. -/
def pyStartsWith (s pre : String) : Bool :=
  pre.data.isPrefixOf s.data

/-- Python str.strip: drop whitespace from both ends. -/
def pyStrip (s : String) : String :=
  ⟨((s.data.dropWhile Char.isWhitespace).reverse.dropWhile Char.isWhitespace).reverse⟩

/-- Python auth.split(" ", 1)[1]: the part after the first space. The source
only evaluates this under a startswith check that guarantees a space. -/
def pySplit1Tail (s : String) : String :=
  ⟨(s.data.dropWhile (fun c => c != ' ')).drop 1⟩

/-- Removes every occurrence of the nonempty pattern pat from the list,
scanning left to right; fuel bounds the recursion by the list length. -/
def removePat (pat : List Char) : Nat → List Char → List Char
  | _, [] => []
  | 0, l => l
  | fuel + 1, c :: cs =>
    if pat.isPrefixOf (c :: cs) ∧ pat ≠ [] then
      removePat pat fuel ((c :: cs).drop pat.length)
    else c :: removePat pat fuel cs

/-- Python s.replace(pat, "") for a nonempty pattern: removes every occurrence. -/
def pyRemoveAll (s pat : String) : String :=
  ⟨removePat pat.data s.data.length s.data⟩

/-- Embeds RequireAuthMiddleware.dispatch from app/core/middleware.py:
whitelist pass-through, bearer-header check, token decoding, access-kind
check, role-claim check, context attachment and coarse role rules. -/
def dispatch (white : List (String → Bool))
    (role_rules : List ((String → Bool) × List String))
    (jwtDecode : String → Option Payload)
    (path : String) (authHeader : Option String) : GateResult :=
  if _is_whitelisted path white then .next
  else
    match authHeader with
    | none => .reject 401 "Missing or invalid Authorization header"
    | some auth =>
      if !(pyStartsWith (pyLower auth) "bearer ") then
        .reject 401 "Missing or invalid Authorization header"
      else
        let token := pyStrip (pySplit1Tail auth)
        if token = "" then .reject 401 "Empty bearer token"
        else
          match decode_token jwtDecode token with
          | .error _ => .reject 401 "Invalid or expired token"
          | .ok payload =>
            if !(is_access_token payload) then .reject 401 "Wrong token type"
            else if !(pyTruthyStr payload.role) then
              .reject 401 "Token missing role claim"
            else
              let ctx : UserCtx :=
                { sub := payload.sub
                  role := payload.role.getD ""
                  email := payload.email
                  scopes := (payload.scopes).getD []
                  jti := payload.jti }
              if role_rules.any
                  (fun rule => rule.1 path && !(rule.2.contains ctx.role)) then
                .reject 403 "Forbidden (role not allowed)"
              else .proceed ctx

/-- The users table row (app/modules/users/models.py User), restricted to the
columns the verified operations read: primary key, email, role and the
active flag. -/
structure User where
  id : String
  email : String
  role : String
  is_active : Bool
deriving DecidableEq, Repr

/-- Embeds get_by_id from app/modules/users/repository.py
(session.get(User, user_id)), with the users table as a list; a None id
matches no row. -/
def get_by_id (users : List User) (user_id : Option String) : Option User :=
  match user_id with
  | none => none
  | some uid => users.find? (fun u => u.id == uid)

/-- Embeds get_current_user from app/dependencies.py: decode the token,
require the access kind, load the subject row, reject a missing user with
401 user_not_found and an inactive user with 403 user_inactive. Errors are
HTTPException (status, detail) pairs. -/
def get_current_user (jwtDecode : String → Option Payload) (users : List User)
    (token : String) : Except (Nat × String) User :=
  match decode_token jwtDecode token with
  | .error _ => .error (401, "invalid_token")
  | .ok payload =>
    if !(is_access_token payload) then .error (401, "invalid_token_type")
    else
      match get_by_id users payload.sub with
      | none => .error (401, "user_not_found")
      | some user =>
        if !user.is_active then .error (403, "user_inactive")
        else .ok user

/-- Embeds auth_refresh from app/routers/auth.py: decode the presented
refresh token, require the refresh kind, and mint a new access token with
create_access_token(subject=str(user_id)) — no email, role, scopes or
extra claims. The result carries the payload of the newly minted access
token; signing it is the jose collaborator. Python str(None) is the
string None, kept faithfully in the unreachable missing-sub branch. -/
def auth_refresh (jwtDecode : String → Option Payload) (refresh_token : String)
    (iat exp : Int) (jti : String) : Except (Nat × String) Payload :=
  match decode_token jwtDecode refresh_token with
  | .error _ => .error (401, "invalid_token")
  | .ok payload =>
    if !(is_refresh_token payload) then .error (401, "invalid_token_type")
    else
      .ok (create_access_token
        (match payload.sub with | some s => s | none => "None")
        none none none iat exp jti)

/-! Booking engine: app/modules/appointments/models.py and service.py.
Dates and times of day are modelled as naturals, UUIDs as strings. -/

/-- Status strings of the ApptStatus enum in app/modules/appointments/models.py. -/
def ApptStatus.SCHEDULED : String := "scheduled"

/-- Status string for a completed appointment. -/
def ApptStatus.COMPLETED : String := "completed"

/-- Status string for a cancelled appointment. -/
def ApptStatus.CANCELLED : String := "cancelled"

/-- The appointments table row (app/modules/appointments/models.py
Appointment): UUID primary key, patient and doctor foreign keys, date,
start and end time, free status string, and the timestamp mixin columns. -/
structure Appointment where
  id : String
  patient_id : String
  doctor_id : String
  appointment_date : Nat
  start_time : Nat
  end_time : Nat
  status : String
  created_at : Nat
  updated_at : Nat
deriving DecidableEq, Repr

/-- Embeds AppointmentCreateRequest from app/modules/appointments/schemas.py;
the payload deliberately has no patient_id field. -/
structure AppointmentCreateRequest where
  doctor_id : String
  appointment_date : Nat
  start_time : Nat
  end_time : Nat
deriving DecidableEq, Repr

/-- Embeds AppointmentPublic from app/modules/appointments/schemas.py. -/
structure AppointmentPublic where
  id : String
  patient_id : String
  doctor_id : String
  appointment_date : Nat
  start_time : Nat
  end_time : Nat
  status : String
  created_at : Nat
  updated_at : Nat
deriving DecidableEq, Repr

/-- Embeds _to_public from app/modules/appointments/service.py. -/
def _to_public (appt : Appointment) : AppointmentPublic :=
  { id := appt.id
    patient_id := appt.patient_id
    doctor_id := appt.doctor_id
    appointment_date := appt.appointment_date
    start_time := appt.start_time
    end_time := appt.end_time
    status := appt.status
    created_at := appt.created_at
    updated_at := appt.updated_at }

/-- Errors surfaced by the appointment service: the custom exception classes
of app/modules/appointments/service.py plus the IntegrityError the store
raises when an INSERT violates a declared constraint. -/
inductive ApptError where
  | AppointmentForbidden (msg : String)
  | AppointmentConflict (msg : String)
  | AppointmentNotFound (msg : String)
  | IntegrityError (constraint : String)
deriving DecidableEq, Repr

/-- The uniqueness constraint uq_appt_doctor_day_start declared in
Appointment.__table_args__ (app/modules/appointments/models.py): at most
one row — of any status — per (doctor_id, appointment_date, start_time).
The store enforces it on the INSERT issued by session.flush(). -/
def uq_appt_violation (db : List Appointment) (a : Appointment) : Bool :=
  db.any (fun b =>
    b.doctor_id == a.doctor_id &&
    b.appointment_date == a.appointment_date &&
    b.start_time == a.start_time)

/-- Embeds create_appointment_svc from app/modules/appointments/service.py:
only role patient may create; the conflict pre-check looks for a
non-cancelled row with the same doctor, date and start time; the new row
takes patient_id from current_user, status scheduled, and is flushed —
where the store checks uq_appt_doctor_day_start against every existing
row. The generated UUID and the clock are inputs. Returns the database
after the call together with the result. -/
def create_appointment_svc (db : List Appointment)
    (payload : AppointmentCreateRequest) (current_user : User)
    (newId : String) (now : Nat) :
    List Appointment × Except ApptError AppointmentPublic :=
  if current_user.role ≠ "patient" then
    (db, .error (.AppointmentForbidden "only_patients_can_create"))
  else if db.any (fun a =>
      a.doctor_id == payload.doctor_id &&
      a.appointment_date == payload.appointment_date &&
      a.start_time == payload.start_time &&
      a.status != ApptStatus.CANCELLED) then
    (db, .error (.AppointmentConflict "slot_already_taken"))
  else
    let appt : Appointment :=
      { id := newId
        patient_id := current_user.id
        doctor_id := payload.doctor_id
        appointment_date := payload.appointment_date
        start_time := payload.start_time
        end_time := payload.end_time
        status := ApptStatus.SCHEDULED
        created_at := now
        updated_at := now }
    if uq_appt_violation db appt then
      (db, .error (.IntegrityError "uq_appt_doctor_day_start"))
    else (db ++ [appt], .ok (_to_public appt))

/-- Embeds cancel_appointment_svc from app/modules/appointments/service.py:
fetch by primary key (404 when absent), then the ownership checks (a
patient must own as patient, a doctor as doctor, an admin is
unrestricted), then the idempotent early return for an already cancelled
row, else the transition to cancelled. -/
def cancel_appointment_svc (db : List Appointment) (appointment_id : String)
    (current_user : User) (now : Nat) :
    List Appointment × Except ApptError AppointmentPublic :=
  match db.find? (fun a => a.id == appointment_id) with
  | none => (db, .error (.AppointmentNotFound "appointment_not_found"))
  | some appt =>
    if current_user.role = "patient" ∧ appt.patient_id ≠ current_user.id then
      (db, .error (.AppointmentForbidden "not_owner"))
    else if current_user.role = "doctor" ∧ appt.doctor_id ≠ current_user.id then
      (db, .error (.AppointmentForbidden "not_owner"))
    else if appt.status = ApptStatus.CANCELLED then
      (db, .ok (_to_public appt))
    else
      let appt2 := { appt with status := ApptStatus.CANCELLED, updated_at := now }
      (db.map (fun a => if a.id == appointment_id then appt2 else a),
       .ok (_to_public appt2))

/-! Availability engine: app/modules/doctors/models.py, schemas.py,
repository.py, the permission guards of app/core/permission.py and the
route handlers of app/routers/doctor.py. Datetimes are modelled as
integers. -/

/-- The availabilities table row (app/modules/doctors/models.py
Availability): integer primary key, owning doctor UUID, start and end
datetimes, booked flag and timestamps. -/
structure Availability where
  id : Nat
  doctor_id : String
  start_time : Int
  end_time : Int
  is_booked : Bool
  created_at : Int
  updated_at : Int
deriving DecidableEq, Repr

/-- Embeds AvailabilityCreate from app/modules/doctors/schemas.py together
with its end-after-start pydantic validator, which rejects the payload
before any handler or insert runs. -/
structure AvailabilityCreate where
  start_time : Int
  end_time : Int
deriving DecidableEq, Repr

/-- Validation entry point of AvailabilityCreate: pydantic runs the
end_time validator, rejecting end_time ≤ start_time. -/
def AvailabilityCreate.validate (start_time end_time : Int) :
    Except String AvailabilityCreate :=
  if end_time ≤ start_time then .error "end_time must be after start_time"
  else .ok ⟨start_time, end_time⟩

/-- Embeds AvailabilityUpdate from app/modules/doctors/schemas.py: every
field optional. -/
structure AvailabilityUpdate where
  start_time : Option Int
  end_time : Option Int
  is_booked : Option Bool
deriving DecidableEq, Repr

/-- Embeds create_availability from app/modules/doctors/repository.py: adds
an unbooked slot for the doctor and flushes. Primary key and clock are
inputs. -/
def create_availability (db : List Availability) (doctor_id : String)
    (start_time end_time : Int) (newId : Nat) (now : Int) :
    List Availability × Availability :=
  let slot : Availability :=
    { id := newId
      doctor_id := doctor_id
      start_time := start_time
      end_time := end_time
      is_booked := false
      created_at := now
      updated_at := now }
  (db ++ [slot], slot)

/-- Embeds get_owner_id_by_slot from app/modules/doctors/repository.py. -/
def get_owner_id_by_slot (db : List Availability) (slot_id : Nat) :
    Option String :=
  (db.find? (fun s => s.id == slot_id)).map (fun s => s.doctor_id)

/-- Embeds update_availability from app/modules/doctors/repository.py: one
UPDATE statement setting exactly the fields that are not None plus
updated_at, filtered on the slot id; returns the updated database and the
statement rowcount (res.rowcount or 0). -/
def update_availability (db : List Availability) (slot_id : Nat)
    (start_time end_time : Option Int) (is_booked : Option Bool) (now : Int) :
    List Availability × Nat :=
  (db.map (fun s =>
      if s.id == slot_id then
        { s with
          start_time := start_time.getD s.start_time
          end_time := end_time.getD s.end_time
          is_booked := is_booked.getD s.is_booked
          updated_at := now }
      else s),
   (db.filter (fun s => s.id == slot_id)).length)

/-- Errors a route handler can surface: an HTTPException carrying status
and detail, or a Python-level AttributeError escaping the handler. -/
inductive RouteErr where
  | http (status : Nat) (detail : String)
  | attributeError (msg : String)
deriving DecidableEq, Repr

/-- Embeds require_roles from app/core/permission.py: reads the role key of
the request.state.user dict and rejects with 403 forbidden_role unless it
belongs to the allowed set; on success it returns that same dict. -/
def permission_require_roles (allowed_roles : List String) (user : UserCtx) :
    Except (Nat × String) UserCtx :=
  if !(allowed_roles.contains user.role) then .error (403, "forbidden_role")
  else .ok user

/-- Python str(x) of an optional string, as applied to user.get("sub") in
require_owner_or_admin: str(None) is the string None. -/
def pyStrOpt : Option String → String
  | none => "None"
  | some s => s

/-- Embeds _get_owner_id from app/routers/doctor.py: the owner UUID of the
slot as a string, or None when the slot does not exist (str(owner) if
owner else None — Python truthiness, so an empty owner also maps to
None). -/
def _get_owner_id (resource_id : Nat) (db : List Availability) : Option String :=
  match get_owner_id_by_slot db resource_id with
  | none => none
  | some owner => if owner ≠ "" then some owner else none

/-- Embeds require_owner_or_admin from app/core/permission.py: an admin
passes immediately; otherwise the injected owner resolver runs, a missing
resource is 404 not_found, and an owner different from the caller subject
is 403 not_owner. -/
def require_owner_or_admin
    (owner_id_getter : Nat → List Availability → Option String)
    (db : List Availability) (user : UserCtx) (resource_id : Nat) :
    Except (Nat × String) UserCtx :=
  if user.role = "admin" then .ok user
  else
    match owner_id_getter resource_id db with
    | none => .error (404, "not_found")
    | some owner =>
      if owner ≠ pyStrOpt user.sub then .error (403, "not_owner")
      else .ok user

/-- Attribute access on the request.state.user dict: a Python dict instance
has no attribute named id (its keys are reachable only through
subscription or .get), so user.id raises AttributeError for every key. -/
def dictGetAttr (_user : UserCtx) (attr : String) : Except RouteErr String :=
  .error (.attributeError ("dict object has no attribute " ++ attr))

/-- Embeds create_slot from app/routers/doctor.py: the route depends on
require_roles("doctor") imported from app/core/permission.py — which
yields the token dict, not a User row — and then evaluates user.id to
obtain the doctor id before inserting the slot. -/
def create_slot (db : List Availability) (ctx : UserCtx)
    (payload : AvailabilityCreate) (newId : Nat) (now : Int) :
    List Availability × Except RouteErr Availability :=
  match permission_require_roles ["doctor"] ctx with
  | .error e => (db, .error (.http e.1 e.2))
  | .ok user =>
    match dictGetAttr user "id" with
    | .error e => (db, .error e)
    | .ok doctor_id =>
      let (db2, slot) :=
        create_availability db doctor_id payload.start_time payload.end_time newId now
      (db2, .ok slot)

/-- Embeds update_slot from app/routers/doctor.py: the
require_owner_or_admin dependency is commented out in the source, so no
guard runs and the ctx argument is unused; update_availability executes
unconditionally; the source then guards on rec is None — dead, because
update_availability returns an int rowcount — and finally calls
repo.get_availability_by_id, a function the repository module does not
define, raising AttributeError. -/
def update_slot (db : List Availability) (_ctx : UserCtx) (resource_id : Nat)
    (payload : AvailabilityUpdate) (now : Int) :
    List Availability × Except RouteErr Availability :=
  let res := update_availability db resource_id
    payload.start_time payload.end_time payload.is_booked now
  (res.1, .error (.attributeError
    "module app.modules.doctors.repository has no attribute get_availability_by_id"))

/-- Embeds delete_availability from app/modules/doctors/repository.py. -/
def delete_availability (db : List Availability) (slot_id : Nat) :
    List Availability × Nat :=
  (db.filter (fun s => s.id != slot_id),
   (db.filter (fun s => s.id == slot_id)).length)

/-- Embeds delete_slot from app/routers/doctor.py, where the
require_owner_or_admin(_get_owner_id) dependency is active: the guard
runs first, then the delete, with 404 when nothing was deleted. -/
def delete_slot (db : List Availability) (ctx : UserCtx) (resource_id : Nat) :
    List Availability × Except RouteErr Unit :=
  match require_owner_or_admin _get_owner_id db ctx resource_id with
  | .error e => (db, .error (.http e.1 e.2))
  | .ok _ =>
    let res := delete_availability db resource_id
    if res.2 = 0 then (res.1, .error (.http 404 "not_found"))
    else (res.1, .ok ())

/-! Unit-of-work managers: get_session from app/db/sql.py and the
transaction context manager from
app/Transaction and Rollback/transaction_manager.py. Business writes are
abstract values of a type parameter; a body either produces its pending
writes or raises. -/

/-- A row of the audit_logs table written by get_session
(app/modules/users/models.py AuditLog, timestamp column omitted as a
server default never read back). -/
structure AuditEntry where
  user_id : Option String
  action : String
  details : String
deriving DecidableEq, Repr

/-- Durable store state seen by get_session: committed business rows and
committed audit_logs rows. -/
structure Store (α : Type) where
  biz : List α
  audit : List AuditEntry
deriving DecidableEq, Repr

/-- Exceptions inside a unit-of-work: an exception raised by the body, an
exception raised by an audit-log INSERT, and the NameError escaping the
finally block of log_action when get_connection itself failed. -/
inductive UowErr where
  | body (msg : String)
  | auditWrite (msg : String)
  | nameError (msg : String)
deriving DecidableEq, Repr

/-- Python str(exc) for a unit-of-work exception. -/
def UowErr.msgOf : UowErr → String
  | .body m => m
  | .auditWrite m => m
  | .nameError m => m

/-- Actor resolution at the top of get_session (app/db/sql.py): the raw
Authorization header with the literal Bearer replaced away is fed to
get_current_user, and every failure is swallowed, leaving the actor
unresolved (None). -/
def resolve_actor (jwtDecode : String → Option Payload) (users : List User)
    (authHeader : Option String) : Option String :=
  let token := pyRemoveAll (authHeader.getD "") "Bearer "
  match get_current_user jwtDecode users token with
  | .ok user => some user.id
  | .error _ => none

/-- Embeds get_session from app/db/sql.py. The body yields its pending
writes or raises; auditInsertFails says whether the n-th audit INSERT of
this request raises (the store collaborator failing). On success: commit
the writes, then INSERT the COMMIT audit row and commit it separately.
On any exception — from the body or from that first audit INSERT — roll
back, INSERT a ROLLBACK audit row whose details are str(exc), commit it,
and re-raise. Neither audit INSERT is wrapped in its own handler in the
source: when one raises on the except path, that exception propagates to
the caller in place of the original. -/
def get_session {α : Type} (jwtDecode : String → Option Payload)
    (users : List User) (authHeader : Option String) (method path : String)
    (store : Store α) (body : Except UowErr (List α))
    (auditInsertFails : Nat → Bool) : Store α × Except UowErr Unit :=
  let user_id := resolve_actor jwtDecode users authHeader
  let action := method ++ " " ++ path
  match body with
  | .ok writes =>
    let store1 : Store α := { store with biz := store.biz ++ writes }
    if auditInsertFails 0 then
      if auditInsertFails 1 then
        (store1, .error (.auditWrite "audit_insert_failed"))
      else
        ({ store1 with
            audit := store1.audit ++
              [{ user_id := user_id
                 action := action ++ " ROLLBACK"
                 details := "audit_insert_failed" }] },
         .error (.auditWrite "audit_insert_failed"))
    else
      ({ store1 with
          audit := store1.audit ++
            [{ user_id := user_id
               action := action ++ " COMMIT"
               details := "Operation completed successfully" }] },
       .ok ())
  | .error exc =>
    if auditInsertFails 0 then
      (store, .error (.auditWrite "audit_insert_failed"))
    else
      ({ store with
          audit := store.audit ++
            [{ user_id := user_id
               action := action ++ " ROLLBACK"
               details := exc.msgOf }] },
       .error exc)

/-- A row of the audit_log table written by log_action in
transaction_manager.py: user_id, action, target_table, target_id,
details. -/
structure AuditEntryTm where
  user_id : Option String
  action : String
  target_table : String
  target_id : Nat
  details : String
deriving DecidableEq, Repr

/-- Durable store state seen by the standalone transaction manager. -/
structure TmStore (α : Type) where
  biz : List α
  audit_log : List AuditEntryTm
deriving DecidableEq, Repr

/-- Python x or default for an optional string (None and the empty string
fall back). -/
def pyOrStr (o : Option String) (d : String) : String :=
  match o with
  | none => d
  | some s => if s ≠ "" then s else d

/-- Python x or default for an optional natural (None and 0 fall back). -/
def pyOrNat (o : Option Nat) (d : Nat) : Nat :=
  match o with
  | none => d
  | some n => if n ≠ 0 then n else d

/-- Embeds log_action from transaction_manager.py: open a dedicated
connection, INSERT the audit row with action suffixed by the result, and
commit. An exception from the INSERT is caught and only printed. When
get_connection itself raises, the except block swallows that too, but
the finally block then evaluates conn.close() with conn unbound and a
NameError escapes. connOk and insertOk are the collaborator oracles. -/
def log_action {α : Type} (store : TmStore α) (result : String)
    (user_id : Option String) (action target_table : String) (target_id : Nat)
    (details : String) (connOk insertOk : Bool) :
    TmStore α × Except UowErr Unit :=
  if !connOk then
    (store, .error (.nameError "name conn is not defined"))
  else if !insertOk then
    (store, .ok ())
  else
    ({ store with
        audit_log := store.audit_log ++
          [{ user_id := user_id
             action := action ++ "_" ++ result
             target_table := target_table
             target_id := target_id
             details := details }] },
     .ok ())

/-- Embeds the transaction context manager from transaction_manager.py:
commit on success and then — only if user_id is truthy — write the
COMMIT audit row through log_action; on an exception, roll back, write
the ROLLBACK audit row (again only for a truthy user_id) and re-raise
the original exception. An exception escaping the success-path
log_action lands in the same except block: rollback after commit is a
no-op, the ROLLBACK log_action runs, and the log exception is re-raised. -/
def transaction {α : Type} (store : TmStore α) (user_id : Option String)
    (action target_table : Option String) (target_id : Option Nat)
    (body : Except UowErr (List α)) (connOk insertOk : Bool) :
    TmStore α × Except UowErr Unit :=
  let act := pyOrStr action "UNKNOWN_ACTION"
  let tbl := pyOrStr target_table "UNKNOWN_TABLE"
  let tid := pyOrNat target_id 0
  match body with
  | .ok writes =>
    let store1 : TmStore α := { store with biz := store.biz ++ writes }
    if pyTruthyStr user_id then
      match log_action store1 "COMMIT" user_id act tbl tid
          "Transaction committed successfully" connOk insertOk with
      | (store2, .ok _) => (store2, .ok ())
      | (store2, .error e) =>
        if pyTruthyStr user_id then
          match log_action store2 "ROLLBACK" user_id act tbl tid
              e.msgOf connOk insertOk with
          | (store3, .ok _) => (store3, .error e)
          | (store3, .error e2) => (store3, .error e2)
        else (store2, .error e)
    else (store1, .ok ())
  | .error exc =>
    if pyTruthyStr user_id then
      match log_action store "ROLLBACK" user_id act tbl tid
          exc.msgOf connOk insertOk with
      | (store2, .ok _) => (store2, .error exc)
      | (store2, .error e2) => (store2, .error e2)
    else (store, .error exc)

/-! Theorems settling the claims. -/

/-- C1: the spec scenario — patient A books (docD, day 100, start 900),
patient B gets Conflict on the identical slot, A cancels — but B's retry
of the identical slot does not succeed with status scheduled: the
pre-check passes (the cancelled row is excluded), yet the INSERT violates
uq_appt_doctor_day_start, which covers cancelled rows too, and the store
raises IntegrityError. The first three steps behave as the claim says;
the fourth diverges. -/
theorem C1_retry_after_cancel_hits_unique_constraint :
    create_appointment_svc []
        ⟨"docD", 100, 900, 930⟩ ⟨"pA", "a@ex.com", "patient", true⟩ "appt-A" 10 =
      ([⟨"appt-A", "pA", "docD", 100, 900, 930, "scheduled", 10, 10⟩],
       .ok ⟨"appt-A", "pA", "docD", 100, 900, 930, "scheduled", 10, 10⟩)
    ∧ create_appointment_svc
        [⟨"appt-A", "pA", "docD", 100, 900, 930, "scheduled", 10, 10⟩]
        ⟨"docD", 100, 900, 930⟩ ⟨"pB", "b@ex.com", "patient", true⟩ "appt-B" 11 =
      ([⟨"appt-A", "pA", "docD", 100, 900, 930, "scheduled", 10, 10⟩],
       .error (.AppointmentConflict "slot_already_taken"))
    ∧ cancel_appointment_svc
        [⟨"appt-A", "pA", "docD", 100, 900, 930, "scheduled", 10, 10⟩]
        "appt-A" ⟨"pA", "a@ex.com", "patient", true⟩ 12 =
      ([⟨"appt-A", "pA", "docD", 100, 900, 930, "cancelled", 10, 12⟩],
       .ok ⟨"appt-A", "pA", "docD", 100, 900, 930, "cancelled", 10, 12⟩)
    ∧ create_appointment_svc
        [⟨"appt-A", "pA", "docD", 100, 900, 930, "cancelled", 10, 12⟩]
        ⟨"docD", 100, 900, 930⟩ ⟨"pB", "b@ex.com", "patient", true⟩ "appt-B" 13 =
      ([⟨"appt-A", "pA", "docD", 100, 900, 930, "cancelled", 10, 12⟩],
       .error (.IntegrityError "uq_appt_doctor_day_start")) :=
  ⟨rfl, rfl, rfl, rfl⟩

/-- C6: create_appointment_svc enforces the role gate (non-patient is
Forbidden), takes patient_id from the caller, and returns Conflict when a
non-cancelled row occupies the (doctor, date, start) tuple — but when the
tuple is occupied only by a cancelled row, the pre-check passes and the
INSERT still fails with IntegrityError on uq_appt_doctor_day_start, so
the create does not succeed although no non-cancelled appointment with
that tuple exists. -/
theorem C6_create_gates_hold_but_cancelled_row_blocks_insert :
    create_appointment_svc []
        ⟨"docE", 200, 800, 830⟩ ⟨"pP", "p@ex.com", "patient", true⟩ "n1" 5 =
      ([⟨"n1", "pP", "docE", 200, 800, 830, "scheduled", 5, 5⟩],
       .ok ⟨"n1", "pP", "docE", 200, 800, 830, "scheduled", 5, 5⟩)
    ∧ (create_appointment_svc
        [⟨"x1", "pQ", "docE", 200, 800, 830, "scheduled", 1, 1⟩]
        ⟨"docE", 200, 800, 830⟩ ⟨"pP", "p@ex.com", "patient", true⟩ "n2" 6).2 =
      .error (.AppointmentConflict "slot_already_taken")
    ∧ (create_appointment_svc []
        ⟨"docE", 200, 800, 830⟩ ⟨"dZ", "d@ex.com", "doctor", true⟩ "n3" 7).2 =
      .error (.AppointmentForbidden "only_patients_can_create")
    ∧ create_appointment_svc
        [⟨"x2", "pQ", "docE", 200, 800, 830, "cancelled", 1, 2⟩]
        ⟨"docE", 200, 800, 830⟩ ⟨"pP", "p@ex.com", "patient", true⟩ "n4" 8 =
      ([⟨"x2", "pQ", "docE", 200, 800, 830, "cancelled", 1, 2⟩],
       .error (.IntegrityError "uq_appt_doctor_day_start")) :=
  ⟨rfl, rfl, rfl, rfl⟩

/-- C4: the availability-slot update route is not gated: the
require_owner_or_admin dependency is commented out in the source, so a
non-admin caller who does not own the slot gets no Forbidden and the
UPDATE executes (the booked flag flips); the dead rec-is-None check means
a missing slot id yields no NotFound either; every request then crashes
on the undefined repo.get_availability_by_id. The guard itself, run on
the same input as it is for the delete route, would have answered 403
not_owner. -/
theorem C4_update_slot_not_gated :
    update_slot [⟨1, "doc-1", 10, 20, false, 0, 0⟩]
        ⟨some "doc-2", "doctor", none, [], none⟩ 1 ⟨none, none, some true⟩ 99 =
      ([⟨1, "doc-1", 10, 20, true, 0, 99⟩],
       .error (.attributeError
         "module app.modules.doctors.repository has no attribute get_availability_by_id"))
    ∧ (update_slot [⟨1, "doc-1", 10, 20, false, 0, 0⟩]
        ⟨some "admin-1", "admin", none, [], none⟩ 1 ⟨none, none, some true⟩ 99).2 =
      .error (.attributeError
        "module app.modules.doctors.repository has no attribute get_availability_by_id")
    ∧ (update_slot ([] : List Availability)
        ⟨some "admin-1", "admin", none, [], none⟩ 5 ⟨none, none, some true⟩ 99).2 =
      .error (.attributeError
        "module app.modules.doctors.repository has no attribute get_availability_by_id")
    ∧ require_owner_or_admin _get_owner_id [⟨1, "doc-1", 10, 20, false, 0, 0⟩]
        ⟨some "doc-2", "doctor", none, [], none⟩ 1 =
      .error (403, "not_owner") :=
  ⟨rfl, rfl, rfl, rfl⟩

/-- C8: the create-slot route checks the doctor role through the
permission-module require_roles (a non-doctor gets 403 forbidden_role)
and the schema rejects end_time ≤ start_time before any insert, but the
success path never completes: require_roles hands the handler the
request.state.user dict, and the handler evaluates user.id, which raises
AttributeError on a dict, so no slot is ever created for a valid
doctor call. -/
theorem C8_create_slot_crashes_on_dict_attribute :
    AvailabilityCreate.validate 10 20 = .ok ⟨10, 20⟩
    ∧ create_slot [] ⟨some "doc-1", "doctor", none, [], none⟩ ⟨10, 20⟩ 1 0 =
      ([], .error (.attributeError "dict object has no attribute id"))
    ∧ (create_slot [] ⟨some "p1", "patient", none, [], none⟩ ⟨10, 20⟩ 1 0).2 =
      .error (.http 403 "forbidden_role")
    ∧ AvailabilityCreate.validate 20 10 =
      .error "end_time must be after start_time" :=
  ⟨rfl, rfl, rfl, rfl⟩

/-- C2 counterexample: a unit-of-work of the standalone transaction manager
runs to completion (the body commits one write) with an unresolved actor,
and zero audit entries are appended — the claim demands exactly one
COMMIT entry with the actor recorded as null. -/
theorem C2_counterexample_no_audit_for_null_actor :
    transaction (⟨[], []⟩ : TmStore Nat) none
        (some "CREATE") (some "appointments") (some 1) (.ok [7]) true true =
      (⟨[7], []⟩, .ok ()) :=
  rfl

/-- C2 amended: the request-scoped unit-of-work (get_session) appends, when
its audit INSERTs do not fail, exactly one audit entry per completed
unit-of-work — COMMIT with the body writes persisted on success, ROLLBACK
with the body writes absent and the body exception re-raised unchanged on
failure — whatever the actor resolution yields, null included; the
standalone transaction manager appends exactly one audit entry (suffix
_COMMIT or _ROLLBACK, body writes persisted or discarded accordingly)
only when a truthy actor id was supplied, and appends none at all when
the actor is unresolved. -/
theorem C2_audit_per_unit_of_work {α : Type}
    (jwtDecode : String → Option Payload) (users : List User)
    (authHeader : Option String) (method path : String) (store : Store α)
    (writes : List α) (exc : UowErr) (tstore : TmStore α)
    (uid : Option String) (act tbl : Option String) (tid : Option Nat)
    (huid : pyTruthyStr uid = true) :
    get_session jwtDecode users authHeader method path store (.ok writes)
        (fun _ => false) =
      ({ biz := store.biz ++ writes
         audit := store.audit ++
           [⟨resolve_actor jwtDecode users authHeader,
             method ++ " " ++ path ++ " COMMIT",
             "Operation completed successfully"⟩] }, .ok ())
    ∧ get_session jwtDecode users authHeader method path store (.error exc)
        (fun _ => false) =
      ({ biz := store.biz
         audit := store.audit ++
           [⟨resolve_actor jwtDecode users authHeader,
             method ++ " " ++ path ++ " ROLLBACK", exc.msgOf⟩] }, .error exc)
    ∧ transaction tstore uid act tbl tid (.ok writes) true true =
      ({ biz := tstore.biz ++ writes
         audit_log := tstore.audit_log ++
           [⟨uid, pyOrStr act "UNKNOWN_ACTION" ++ "_" ++ "COMMIT",
             pyOrStr tbl "UNKNOWN_TABLE", pyOrNat tid 0,
             "Transaction committed successfully"⟩] }, .ok ())
    ∧ transaction tstore uid act tbl tid (.error exc) true true =
      ({ biz := tstore.biz
         audit_log := tstore.audit_log ++
           [⟨uid, pyOrStr act "UNKNOWN_ACTION" ++ "_" ++ "ROLLBACK",
             pyOrStr tbl "UNKNOWN_TABLE", pyOrNat tid 0, exc.msgOf⟩] },
       .error exc)
    ∧ transaction tstore none act tbl tid (.ok writes) true true =
      ({ tstore with biz := tstore.biz ++ writes }, .ok ())
    ∧ transaction tstore none act tbl tid (.error exc) true true =
      (tstore, .error exc) := by
  refine ⟨rfl, rfl, ?_, ?_, rfl, rfl⟩
  · simp [transaction, log_action, huid]
  · simp [transaction, log_action, huid]

/-- C2 witness: the amended statement instantiated with a truthy actor u1 on
a one-write body over a store of naturals. -/
theorem C2_audit_per_unit_of_work_witness :
    pyTruthyStr (some "u1") = true
    ∧ transaction (⟨[], []⟩ : TmStore Nat) (some "u1") none none none
        (.ok [5]) true true =
      ({ biz := [5]
         audit_log := [⟨some "u1", pyOrStr none "UNKNOWN_ACTION" ++ "_" ++ "COMMIT",
           pyOrStr none "UNKNOWN_TABLE", pyOrNat none 0,
           "Transaction committed successfully"⟩] }, .ok ()) :=
  ⟨by decide,
   (C2_audit_per_unit_of_work (α := Nat) (fun _ => none) [] none "POST" "/x"
     ⟨[], []⟩ [5] (.body "boom") ⟨[], []⟩ (some "u1") none none none
     (by decide)).2.2.1⟩

/-- C3 counterexample: in get_session the business transaction commits (the
write 7 persists), the COMMIT audit INSERT raises, and the caller
observes that audit exception — together with a spurious ROLLBACK audit
entry — instead of the success the claim promises. -/
theorem C3_counterexample_audit_failure_not_swallowed :
    get_session (fun _ => none) [] none "POST" "/api/appointments/create"
        (⟨[], []⟩ : Store Nat) (.ok [7]) (fun n => n == 0) =
      (⟨[7], [⟨none, "POST /api/appointments/create ROLLBACK",
         "audit_insert_failed"⟩]⟩,
       .error (.auditWrite "audit_insert_failed")) :=
  rfl

/-- C3 amended: in the standalone transaction manager a failing audit INSERT
(on an acquired connection) is swallowed by log_action and the caller
still observes the original outcome — success after commit, the original
body exception after rollback; in the request-scoped get_session an
audit-write failure is unhandled: on the commit path it propagates to
the caller although the business writes persist, and on the rollback
path it propagates in place of the original body exception. -/
theorem C3_audit_failure_paths {α : Type}
    (jwtDecode : String → Option Payload) (users : List User)
    (authHeader : Option String) (method path : String) (store : Store α)
    (writes : List α) (exc : UowErr) (tstore : TmStore α)
    (uid : Option String) (act tbl : Option String) (tid : Option Nat)
    (huid : pyTruthyStr uid = true) :
    transaction tstore uid act tbl tid (.ok writes) true false =
      ({ tstore with biz := tstore.biz ++ writes }, .ok ())
    ∧ transaction tstore uid act tbl tid (.error exc) true false =
      (tstore, .error exc)
    ∧ get_session jwtDecode users authHeader method path store (.ok writes)
        (fun n => n == 0) =
      ({ biz := store.biz ++ writes
         audit := store.audit ++
           [⟨resolve_actor jwtDecode users authHeader,
             method ++ " " ++ path ++ " ROLLBACK", "audit_insert_failed"⟩] },
       .error (.auditWrite "audit_insert_failed"))
    ∧ get_session jwtDecode users authHeader method path store (.error exc)
        (fun n => n == 0) =
      (store, .error (.auditWrite "audit_insert_failed")) := by
  refine ⟨?_, ?_, rfl, rfl⟩
  · simp [transaction, log_action, huid]
  · simp [transaction, log_action, huid]

/-- C3 witness: the amended statement instantiated with a truthy actor u2,
a one-write body and a failing audit INSERT. -/
theorem C3_audit_failure_paths_witness :
    pyTruthyStr (some "u2") = true
    ∧ transaction (⟨[], []⟩ : TmStore Nat) (some "u2") none none none
        (.ok [9]) true false = (⟨[9], []⟩, .ok ()) :=
  ⟨by decide,
   (C3_audit_failure_paths (α := Nat) (fun _ => none) [] none "POST" "/y"
     ⟨[], []⟩ [9] (.body "err") ⟨[], []⟩ (some "u2") none none none
     (by decide)).1⟩

/-- C5: on a non-whitelisted path, a bearer token that decodes successfully
but whose type claim is not access is rejected by the gate with 401
Wrong token type; the result is a reject, never a pass-through to a
handler. -/
theorem C5_non_access_token_rejected (white : List (String → Bool))
    (role_rules : List ((String → Bool) × List String))
    (jwtDecode : String → Option Payload) (path auth : String) (p : Payload)
    (hw : _is_whitelisted path white = false)
    (hb : pyStartsWith (pyLower auth) "bearer " = true)
    (hdec : decode_token jwtDecode (pyStrip (pySplit1Tail auth)) = .ok p)
    (hty : is_access_token p = false) :
    dispatch white role_rules jwtDecode path (some auth) =
      .reject 401 "Wrong token type" := by
  have ht : pyStrip (pySplit1Tail auth) ≠ "" := by
    intro h
    rw [h] at hdec
    simp [decode_token] at hdec
  simp [dispatch, hw, hb, ht, hdec, hty]

/-- C5 witness: an unexpired, well-signed refresh token presented on the
appointments path is rejected with Wrong token type. -/
theorem C5_non_access_token_rejected_witness :
    _is_whitelisted "/api/appointments/my" [] = false
    ∧ pyStartsWith (pyLower "Bearer rt") "bearer " = true
    ∧ decode_token
        (fun t => if t == "rt" then
          some ⟨some "u1", some "refresh", none, none, none, some "j1", some 1, some 99⟩
          else none)
        (pyStrip (pySplit1Tail "Bearer rt")) =
      .ok ⟨some "u1", some "refresh", none, none, none, some "j1", some 1, some 99⟩
    ∧ is_access_token
        ⟨some "u1", some "refresh", none, none, none, some "j1", some 1, some 99⟩ = false
    ∧ dispatch [] []
        (fun t => if t == "rt" then
          some ⟨some "u1", some "refresh", none, none, none, some "j1", some 1, some 99⟩
          else none)
        "/api/appointments/my" (some "Bearer rt") =
      .reject 401 "Wrong token type" :=
  ⟨rfl, by decide, rfl, rfl,
   C5_non_access_token_rejected [] [] _ _ _ _ rfl (by decide) rfl rfl⟩

/-- C7: cancelling an already cancelled appointment is an idempotent no-op
for every authorized caller — owning patient, owning doctor, or admin:
the service returns the current terminal state and leaves the database
unchanged, so a second cancel returns exactly what the first did. -/
theorem C7_cancel_idempotent_on_cancelled (db : List Appointment)
    (appointment_id : String) (current_user : User) (appt : Appointment)
    (now : Nat)
    (hfind : db.find? (fun a => a.id == appointment_id) = some appt)
    (hst : appt.status = ApptStatus.CANCELLED)
    (hauth : (current_user.role = "patient" ∧ appt.patient_id = current_user.id)
      ∨ (current_user.role = "doctor" ∧ appt.doctor_id = current_user.id)
      ∨ current_user.role = "admin") :
    cancel_appointment_svc db appointment_id current_user now =
      (db, .ok (_to_public appt)) := by
  have h1 : ¬(current_user.role = "patient" ∧ appt.patient_id ≠ current_user.id) := by
    rcases hauth with ⟨hr, ho⟩ | ⟨hr, _⟩ | hr
    · exact fun hc => hc.2 ho
    · exact fun hc => by rw [hc.1] at hr; exact absurd hr (by decide)
    · exact fun hc => by rw [hc.1] at hr; exact absurd hr (by decide)
  have h2 : ¬(current_user.role = "doctor" ∧ appt.doctor_id ≠ current_user.id) := by
    rcases hauth with ⟨hr, _⟩ | ⟨hr, ho⟩ | hr
    · exact fun hc => by rw [hc.1] at hr; exact absurd hr (by decide)
    · exact fun hc => hc.2 ho
    · exact fun hc => by rw [hc.1] at hr; exact absurd hr (by decide)
  simp [cancel_appointment_svc, hfind, h1, h2, hst]

/-- C7 witness: the owning patient cancels an appointment that is already
cancelled and gets the unchanged terminal state back with no error. -/
theorem C7_cancel_idempotent_on_cancelled_witness :
    [(⟨"ap1", "p1", "d1", 50, 600, 630, "cancelled", 1, 2⟩ : Appointment)].find?
        (fun a => a.id == "ap1") =
      some ⟨"ap1", "p1", "d1", 50, 600, 630, "cancelled", 1, 2⟩
    ∧ (Appointment.status ⟨"ap1", "p1", "d1", 50, 600, 630, "cancelled", 1, 2⟩ =
        ApptStatus.CANCELLED)
    ∧ cancel_appointment_svc
        [⟨"ap1", "p1", "d1", 50, 600, 630, "cancelled", 1, 2⟩] "ap1"
        ⟨"p1", "p@ex.com", "patient", true⟩ 9 =
      ([⟨"ap1", "p1", "d1", 50, 600, 630, "cancelled", 1, 2⟩],
       .ok (_to_public ⟨"ap1", "p1", "d1", 50, 600, 630, "cancelled", 1, 2⟩)) :=
  ⟨rfl, rfl,
   C7_cancel_idempotent_on_cancelled _ _ _ _ _ rfl rfl (Or.inl ⟨rfl, rfl⟩)⟩

/-- C9: every access token minted by the refresh exchange carries only sub,
type, iat, exp and jti — role, email and scopes are absent — and any
such token presented on a non-whitelisted path is rejected by the gate
with 401 Token missing role claim, so it never authenticates a gated
call. -/
theorem C9_refresh_minted_token_never_passes_gate
    (jwtDecode : String → Option Payload) (rt : String) (iat exp : Int)
    (jti : String) (p : Payload)
    (h : auth_refresh jwtDecode rt iat exp jti = .ok p) :
    (p.role = none ∧ p.email = none ∧ p.scopes = none
      ∧ p.type = some "access" ∧ p.sub.isSome = true
      ∧ p.iat = some iat ∧ p.exp = some exp ∧ p.jti = some jti)
    ∧ ∀ (white : List (String → Bool))
        (role_rules : List ((String → Bool) × List String))
        (gateDecode : String → Option Payload) (path auth : String),
        _is_whitelisted path white = false →
        pyStartsWith (pyLower auth) "bearer " = true →
        pyStrip (pySplit1Tail auth) ≠ "" →
        gateDecode (pyStrip (pySplit1Tail auth)) = some p →
        dispatch white role_rules gateDecode path (some auth) =
          .reject 401 "Token missing role claim" := by
  unfold auth_refresh at h
  cases hd : decode_token jwtDecode rt with
  | error e => rw [hd] at h; exact absurd h (by simp)
  | ok q =>
    rw [hd] at h
    by_cases hr : is_refresh_token q = true
    · simp only [hr] at h
      simp only [Bool.not_true, Bool.false_eq_true, if_false, Except.ok.injEq] at h
      subst h
      refine ⟨⟨rfl, rfl, rfl, rfl, rfl, rfl, rfl, rfl⟩, ?_⟩
      intro white role_rules gateDecode path auth hw hb htok hdec2
      simp [dispatch, hw, hb, htok, decode_token, hdec2,
        create_access_token, is_access_token, pyTruthyStr]
    · simp only [Bool.not_eq_true] at hr
      simp [hr] at h

/-- C9 witness: an access token obtained from the refresh endpoint with
subject u9 is rejected by the gate on the appointments path with Token
missing role claim. -/
theorem C9_refresh_minted_token_never_passes_gate_witness :
    auth_refresh
        (fun t => if t == "rt9" then
          some ⟨some "u9", some "refresh", none, none, none, some "j9", some 3, some 9⟩
          else none)
        "rt9" 100 200 "jti9" =
      .ok (create_access_token "u9" none none none 100 200 "jti9")
    ∧ dispatch [] []
        (fun t => if t == "at9" then
          some (create_access_token "u9" none none none 100 200 "jti9")
          else none)
        "/api/appointments/my" (some "Bearer at9") =
      .reject 401 "Token missing role claim" :=
  ⟨rfl,
   (C9_refresh_minted_token_never_passes_gate
     (fun t => if t == "rt9" then
       some ⟨some "u9", some "refresh", none, none, none, some "j9", some 3, some 9⟩
       else none)
     "rt9" 100 200 "jti9"
     (create_access_token "u9" none none none 100 200 "jti9") rfl).2
     [] [] _ "/api/appointments/my" "Bearer at9" rfl (by decide) (by decide) rfl⟩

/-- C10: once a valid access token authenticates, the current-user
dependency rejects a resolved user whose is_active flag is false with
403 user_inactive, and rejects a subject matching no user row with 401
user_not_found, so a deactivated account can complete no operation that
requires the current user. -/
theorem C10_inactive_user_forbidden (jwtDecode : String → Option Payload)
    (users : List User) (token : String) (p : Payload)
    (hdec : decode_token jwtDecode token = .ok p)
    (hacc : is_access_token p = true) :
    (∀ u, get_by_id users p.sub = some u → u.is_active = false →
      get_current_user jwtDecode users token = .error (403, "user_inactive"))
    ∧ (get_by_id users p.sub = none →
      get_current_user jwtDecode users token = .error (401, "user_not_found")) := by
  constructor
  · intro u hu hia
    simp [get_current_user, hdec, hacc, hu, hia]
  · intro hn
    simp [get_current_user, hdec, hacc, hn]

/-- C10 witness: a valid access token for the deactivated user u10 yields
403 user_inactive, and one for the unknown subject ghost yields 401
user_not_found. -/
theorem C10_inactive_user_forbidden_witness :
    decode_token
        (fun t => if t == "t10" then
          some ⟨some "u10", some "access", some "patient", none, none, some "j", some 1, some 2⟩
          else none) "t10" =
      .ok ⟨some "u10", some "access", some "patient", none, none, some "j", some 1, some 2⟩
    ∧ get_current_user
        (fun t => if t == "t10" then
          some ⟨some "u10", some "access", some "patient", none, none, some "j", some 1, some 2⟩
          else none)
        [⟨"u10", "u10@ex.com", "patient", false⟩] "t10" =
      .error (403, "user_inactive")
    ∧ get_current_user
        (fun t => if t == "t10" then
          some ⟨some "u10", some "access", some "patient", none, none, some "j", some 1, some 2⟩
          else none)
        [] "t10" =
      .error (401, "user_not_found") :=
  ⟨rfl,
   (C10_inactive_user_forbidden
     (fun t => if t == "t10" then
       some ⟨some "u10", some "access", some "patient", none, none, some "j", some 1, some 2⟩
       else none)
     [⟨"u10", "u10@ex.com", "patient", false⟩] "t10"
     ⟨some "u10", some "access", some "patient", none, none, some "j", some 1, some 2⟩
     rfl rfl).1 ⟨"u10", "u10@ex.com", "patient", false⟩ rfl rfl,
   (C10_inactive_user_forbidden
     (fun t => if t == "t10" then
       some ⟨some "u10", some "access", some "patient", none, none, some "j", some 1, some 2⟩
       else none)
     [] "t10"
     ⟨some "u10", some "access", some "patient", none, none, some "j", some 1, some 2⟩
     rfl rfl).2 rfl⟩

end MedBook
